import Mathlib

/-!
Verification of the Ayurcare booking backend's slot-reservation core.

The definitions below are a shallow embedding of the Express/Prisma
controllers:

* `lockTimeSlot` embeds the controller of the same name in the doctor
  controller (lock acquisition with a 5-minute lease);
* `confirmBooking`, `cancelAppointment`, `updateAppointmentStatus`,
  `rescheduleAppointment` and `confirmReschedule` embed the appointment
  controller.

Modelling conventions:

* All timestamps are `Int` milliseconds since the Unix epoch (JS `Date`
  values compare by their millisecond value).  A slot `date` is the
  millisecond value of UTC midnight of its calendar day, exactly as the
  stored Prisma `date` column.
* The authoritative clock `getDatabaseNow` is passed in as a `NowT`
  value giving the current UTC day (midnight, ms) plus the hour/minute
  of day, which is how the JS code consumes it (`getUTCFullYear`/
  `getUTCHours`/`getUTCMinutes` and `Date.UTC(y,m,d)`).
* `HH:MM` time-of-day strings are embedded as an `HM` pair.  The JS code
  compares zero-padded `HH:MM` strings lexicographically; for two-digit
  fields that order coincides with the lexicographic order on the
  `(hh, mm)` pair used here.
* `Date.UTC(y, m, d, hh, mm)` on a midnight date equals
  `date + (hh*60+mm)*60000` even for out-of-range `hh`/`mm` (JS carries
  the overflow), so `getUtcDateTime` is embedded by that formula.
* Prisma calls are embedded over an explicit store: `findUnique` /
  `findFirst` become `List.find?`, `updateMany` maps the rows matching
  the `where` filter and reports the matched count, `update` by unique
  id maps the rows with that id, `create` appends a row with a fresh id.
* `prisma.$transaction(async tx => ...)` rolls back on a thrown error,
  so each transaction body is an `Except` value and the handler keeps
  the pre-transaction store on `Except.error`.
* The Redis cache is not part of the store; each handler that runs a
  post-commit invalidation takes a `cacheOk : Bool` flag telling whether
  the Redis calls succeed.  Where the source wraps the Redis block in
  `try/catch` the handler's outcome ignores the flag (the error is only
  logged); where it does not, a Redis failure falls through to the outer
  `catch` and produces the generic 500 response.
* Response payloads (JSON bodies) are reduced to what the claims need:
  HTTP status, success flag, typed error code, and the `slotReleased`
  flag of the cancellation response.
-/

namespace Ayur

/-- An `HH:MM` time-of-day, standing for the zero-padded string
`"HH:MM"`; the lexicographic order on `(hh, mm)` used below agrees with
the string order the JS code uses. -/
structure HM where
  hh : Nat
  mm : Nat
  deriving DecidableEq, Repr

/-- Minutes since midnight; `Date.UTC(y,m,d,hh,mm)` adds exactly
`toMin * 60000` ms to the midnight date. -/
def HM.toMin (t : HM) : Nat := t.hh * 60 + t.mm

/-- String comparison `a <= b` on zero-padded `"HH:MM"` strings,
as lexicographic order on the `(hh, mm)` pairs. -/
def HM.strLe (a b : HM) : Bool :=
  decide (a.hh < b.hh) || (decide (a.hh = b.hh) && decide (a.mm ≤ b.mm))

/-- The authoritative "now" (`getDatabaseNow`), as consumed by the
controllers: the UTC midnight of the current day in ms (`Date.UTC(y,m,d)`)
plus the current hour and minute of day. -/
structure NowT where
  day : Int
  hh : Nat
  mm : Nat
  deriving DecidableEq, Repr

/-- The full millisecond timestamp (`nowUtc.getTime()`). -/
def NowT.ms (n : NowT) : Int := n.day + ((n.hh * 60 + n.mm) * 60000 : Nat)

/-- The current `HH:MM` of day (the padded template string built in
`confirmBooking`). -/
def NowT.hm (n : NowT) : HM := ⟨n.hh, n.mm⟩

/-- The `SLOT_STATUS` constants. -/
inductive SlotStatus where
  | AVAILABLE
  | LOCKED
  | BOOKED
  deriving DecidableEq, Repr

/-- The `APPOINTMENT_STATUS` constants. -/
inductive ApptStatus where
  | BOOKED
  | COMPLETED
  | CANCELLED
  | RESCHEDULED
  deriving DecidableEq, Repr

instance : BEq SlotStatus := ⟨fun a b => decide (a = b)⟩

instance : LawfulBEq SlotStatus where
  eq_of_beq h := by simpa [BEq.beq] using h
  rfl := by intro a; simp [BEq.beq]

instance : BEq ApptStatus := ⟨fun a b => decide (a = b)⟩

instance : LawfulBEq ApptStatus where
  eq_of_beq h := by simpa [BEq.beq] using h
  rfl := by intro a; simp [BEq.beq]

/-- A `TimeSlot` row. -/
structure Slot where
  id : Nat
  doctorId : Nat
  date : Int
  startTime : HM
  endTime : HM
  status : SlotStatus
  lockedBy : Option Nat
  lockedAt : Option Int
  lockExpires : Option Int
  deriving DecidableEq, Repr

/-- An `Appointment` row. -/
structure Appointment where
  id : Nat
  userId : Nat
  doctorId : Nat
  timeSlotId : Option Nat
  status : ApptStatus
  notes : Option String
  deriving DecidableEq, Repr

/-- The booking-relevant projection of a `User` row. -/
structure User where
  id : Nat
  otpVerifiedUntil : Option Int
  deriving DecidableEq, Repr

/-- The authoritative transactional store. `nextApptId` models Prisma's
fresh-id generation for `appointment.create`. -/
structure DB where
  slots : List Slot
  appointments : List Appointment
  users : List User
  nextApptId : Nat
  deriving DecidableEq, Repr

/-- Typed outcome codes.  Codes in upper case are the `code` fields /
error messages of the source; the remaining ones stand for responses the
source identifies only by message text. -/
inductive Code where
  | SLOT_NOT_FOUND
  | SLOT_ALREADY_BOOKED
  | OTP_REQUIRED
  | LOCK_INVALID
  | SLOT_IN_PAST
  | SLOT_ALREADY_STARTED
  | CONFLICT_SLOT_STATE
  | NEW_SLOT_NOT_FOUND
  | NEW_SLOT_NOT_LOCKED_BY_USER
  | SLOT_ALREADY_STARTED_OR_PAST
  | CONFLICT_NEW_SLOT
  | APPT_NOT_FOUND
  | ONLY_BOOKED_CANCEL
  | ONLY_BOOKED_RESCHEDULE
  | NO_ACTIVE_SLOT
  | SAME_SLOT
  | DOCTOR_MISMATCH
  | OLD_SLOT_MISMATCH
  | WITHIN_24H
  | NEW_SLOT_PAST
  | SLOT_ALREADY_LOCKED
  | SLOT_TEMP_LOCKED
  | LOCK_LIMIT
  | LOCK_CONFLICT
  | INVALID_STATUS
  | INTERNAL
  deriving DecidableEq, Repr

/-- The part of a handler's HTTP response the claims are about. -/
structure Resp where
  status : Nat
  success : Bool
  code : Option Code
  slotReleased : Option Bool
  deriving DecidableEq, Repr

/-- An error response. -/
def fail (status : Nat) (c : Code) : Resp := ⟨status, false, some c, none⟩

/-- A plain success response. -/
def ok200 : Resp := ⟨200, true, none, none⟩

/-- The `201 Created` success response of `confirmBooking`. -/
def created201 : Resp := ⟨201, true, none, none⟩

/- ### Store primitives (the Prisma embedding) -/

/-- Prisma `findUnique`/`findFirst` on `timeSlot` by id. -/
def findSlot (db : DB) (sid : Nat) : Option Slot :=
  db.slots.find? (fun s => s.id == sid)

/-- Prisma `findUnique` on `appointment` by id. -/
def findAppt (db : DB) (aid : Nat) : Option Appointment :=
  db.appointments.find? (fun a => a.id == aid)

/-- Prisma `findUnique` on `user` by id. -/
def findUser (db : DB) (uid : Nat) : Option User :=
  db.users.find? (fun u => u.id == uid)

/-- Prisma `timeSlot.updateMany`: apply `f` to every row matching `w`, report
the affected-row count. -/
def updateManySlots (db : DB) (w : Slot → Bool) (f : Slot → Slot) : DB × Nat :=
  ({ db with slots := db.slots.map (fun s => if w s then f s else s) },
   db.slots.countP w)

/-- Prisma `appointment.updateMany`. -/
def updateManyAppts (db : DB) (w : Appointment → Bool) (f : Appointment → Appointment) :
    DB × Nat :=
  ({ db with appointments := db.appointments.map (fun a => if w a then f a else a) },
   db.appointments.countP w)

/-- Prisma `timeSlot.update` by unique id. -/
def updateSlotById (db : DB) (sid : Nat) (f : Slot → Slot) : DB :=
  { db with slots := db.slots.map (fun s => if s.id == sid then f s else s) }

/-- Prisma `appointment.update` by unique id. -/
def updateApptById (db : DB) (aid : Nat) (f : Appointment → Appointment) : DB :=
  { db with appointments := db.appointments.map (fun a => if a.id == aid then f a else a) }

/-- Prisma `user.update` by unique id. -/
def updateUserById (db : DB) (uid : Nat) (f : User → User) : DB :=
  { db with users := db.users.map (fun u => if u.id == uid then f u else u) }

/-- Prisma `appointment.create` with a fresh id. -/
def createAppt (db : DB) (uid did : Nat) (tsId : Option Nat) (st : ApptStatus)
    (notes : Option String) : DB × Appointment :=
  let a : Appointment := ⟨db.nextApptId, uid, did, tsId, st, notes⟩
  ({ db with appointments := db.appointments ++ [a], nextApptId := db.nextApptId + 1 }, a)

/-- Prisma filter `lockExpires: { gt: now }` (null never matches). -/
def lockExpGt (s : Slot) (now : Int) : Bool :=
  match s.lockExpires with
  | some e => decide (now < e)
  | none => false

/-- Prisma filter `lockExpires: { lt: now }` (null never matches). -/
def lockExpLt (s : Slot) (now : Int) : Bool :=
  match s.lockExpires with
  | some e => decide (e < now)
  | none => false

/-- The helper `getUtcDateTime(date, time)`: the UTC timestamp of a slot's start,
`Date.UTC(y, m, d, hh, mm)` on the midnight `date` plus the `HH:MM`
time. -/
def getUtcDateTime (date : Int) (t : HM) : Int := date + (t.toMin * 60000 : Nat)

/-- Models the Redis invalidation step: `ok ()` when all Redis calls
succeed, `error ()` when one throws. -/
def cacheStep (cacheOk : Bool) : Except Unit Unit :=
  if cacheOk then Except.ok () else Except.error ()

/- ### `lockTimeSlot` (doctor controller)

Lock a doctor's time slot for 5 minutes by the authenticated user.  The
Redis invalidation at the end of the source handler is inside its own
`try/catch`, so it never affects the outcome and is omitted here. -/

/-- The `where` filter of the atomic lock attempt in `lockTimeSlot`:
`id, doctorId, OR [status AVAILABLE, lockedBy = userId, lockExpires < now]`. -/
def lockWhere (sid did uid : Nat) (now : Int) (s : Slot) : Bool :=
  s.id == sid && s.doctorId == did &&
    (s.status == SlotStatus.AVAILABLE || s.lockedBy == some uid || lockExpLt s now)

/-- The `data` of a lock acquisition: status LOCKED, lockedBy, lockedAt,
lockExpires = now + 5 minutes. -/
def applyLock (uid : Nat) (now expiresAt : Int) (s : Slot) : Slot :=
  { s with status := SlotStatus.LOCKED, lockedBy := some uid,
           lockedAt := some now, lockExpires := some expiresAt }

/-- Handler `lockTimeSlot(req, res)` for `POST /:doctorId/slots/:slotId/lock`. -/
def lockTimeSlot (did sid uid : Nat) (now : NowT) (db : DB) : Resp × DB :=
  match db.slots.find? (fun s => s.id == sid && s.doctorId == did) with
  | none => (fail 404 Code.SLOT_NOT_FOUND, db)
  | some slot =>
    if slot.status = SlotStatus.BOOKED then (fail 409 Code.SLOT_ALREADY_BOOKED, db)
    else if slot.status = SlotStatus.LOCKED then (fail 409 Code.SLOT_ALREADY_LOCKED, db)
    else
      -- `isLockedByOther`: locked by someone else with a live lease
      let isLockedByOther : Bool :=
        slot.status == SlotStatus.LOCKED && slot.lockedBy.isSome &&
          !(slot.lockedBy == some uid) && lockExpGt slot now.ms
      if isLockedByOther then (fail 409 Code.SLOT_TEMP_LOCKED, db)
      else
        -- cap of 3 live leases per user
        let activeLocks := db.slots.countP (fun s =>
          s.lockedBy == some uid && s.status == SlotStatus.LOCKED && lockExpGt s now.ms)
        if activeLocks ≥ 3 then (fail 429 Code.LOCK_LIMIT, db)
        else
          let expiresAt := now.ms + 5 * 60 * 1000
          let r := updateManySlots db (lockWhere sid did uid now.ms)
            (applyLock uid now.ms expiresAt)
          if r.2 ≠ 1 then (fail 409 Code.LOCK_CONFLICT, r.1)
          else (ok200, r.1)

/- ### `confirmBooking` (appointment controller) -/

/-- The `where` filter of the conditional slot transition inside the
`confirmBooking` transaction: `id, doctorId, status LOCKED,
lockedBy = userId, lockExpires > now`. -/
def bookWhere (tsId did uid : Nat) (now : Int) (s : Slot) : Bool :=
  s.id == tsId && s.doctorId == did && s.status == SlotStatus.LOCKED &&
    s.lockedBy == some uid && lockExpGt s now

/-- The `data` of the booking transition: status BOOKED, all lease
fields cleared. -/
def applyBook (s : Slot) : Slot :=
  { s with status := SlotStatus.BOOKED, lockedBy := none,
           lockedAt := none, lockExpires := none }

/-- The OTP gate read in `confirmBooking`: the user exists and
`otpVerifiedUntil` is non-null and strictly after now. -/
def otpOk (db : DB) (uid : Nat) (now : NowT) : Bool :=
  match findUser db uid with
  | none => false
  | some u =>
    match u.otpVerifiedUntil with
    | none => false
    | some t => decide (now.ms < t)

/-- The body of the `prisma.$transaction` in `confirmBooking`; a thrown
typed error rolls the whole transaction back. -/
def txConfirmBooking (did tsId uid : Nat) (notes : Option String) (slot : Slot)
    (now : NowT) (db : DB) : Except Code (DB × Appointment) :=
  let todayUtc := now.day
  if slot.date < todayUtc then Except.error Code.SLOT_IN_PAST
  else if slot.date = todayUtc && HM.strLe slot.startTime now.hm then
    Except.error Code.SLOT_ALREADY_STARTED
  else
    let r := updateManySlots db (bookWhere tsId did uid now.ms) applyBook
    if r.2 ≠ 1 then Except.error Code.CONFLICT_SLOT_STATE
    else
      match r.1.appointments.find? (fun a =>
          a.timeSlotId == some tsId && a.status == ApptStatus.BOOKED) with
      | some _ => Except.error Code.SLOT_ALREADY_BOOKED
      | none =>
        let c := createAppt r.1 uid did (some tsId) ApptStatus.BOOKED notes
        let db3 := updateUserById c.1 uid (fun u => { u with otpVerifiedUntil := none })
        Except.ok (db3, c.2)

/-- The `statusMap` of `confirmBooking`'s error handler. -/
def confirmStatusMap (c : Code) : Nat :=
  match c with
  | Code.SLOT_NOT_FOUND => 404
  | Code.SLOT_ALREADY_BOOKED => 409
  | Code.OTP_REQUIRED => 403
  | Code.LOCK_INVALID => 409
  | Code.SLOT_IN_PAST => 409
  | Code.SLOT_ALREADY_STARTED => 409
  | Code.CONFLICT_SLOT_STATE => 409
  | _ => 400

/-- Handler `confirmBooking(req, res)`.  The Redis invalidation after the commit
is wrapped in `try/catch` in the source, so both outcomes of `cacheStep`
return the same 201 response. -/
def confirmBooking (did tsId : Nat) (notes : Option String) (uid : Nat)
    (now : NowT) (cacheOk : Bool) (db : DB) : Resp × DB :=
  match db.slots.find? (fun s => s.id == tsId) with
  | none => (fail 404 Code.SLOT_NOT_FOUND, db)
  | some slot =>
    if slot.doctorId ≠ did then (fail 404 Code.SLOT_NOT_FOUND, db)
    else if slot.status = SlotStatus.BOOKED then (fail 409 Code.SLOT_ALREADY_BOOKED, db)
    else if !otpOk db uid now then (fail 403 Code.OTP_REQUIRED, db)
    else
      let isLockValid : Bool :=
        slot.status == SlotStatus.LOCKED && slot.lockedBy == some uid &&
          lockExpGt slot now.ms
      if !isLockValid then (fail 409 Code.LOCK_INVALID, db)
      else
        match txConfirmBooking did tsId uid notes slot now db with
        | Except.error c => (fail (confirmStatusMap c) c, db)
        | Except.ok (db', _appt) =>
          match cacheStep cacheOk with
          | Except.ok _ => (created201, db')
          | Except.error _ => (created201, db')  -- caught: logged only

/- ### `updateAppointmentStatus` (appointment controller) -/

/-- Handler `updateAppointmentStatus(req, res)` for `PATCH /appointments/:id`.
`validateAppointmentStatusUpdate` (Joi `valid('BOOKED','COMPLETED',
'CANCELLED')`) and the in-handler `allowedStatuses` check both reject
only `RESCHEDULED` among the enum values.  The Redis invalidation here
is NOT wrapped in `try/catch`: a Redis failure after the row update
falls to the outer `catch` and yields the generic 500 response. -/
def updateAppointmentStatus (uid apptId : Nat) (status : ApptStatus)
    (cacheOk : Bool) (db : DB) : Resp × DB :=
  if status = ApptStatus.RESCHEDULED then (fail 400 Code.INVALID_STATUS, db)
  else
    match findAppt db apptId with
    | none => (fail 404 Code.APPT_NOT_FOUND, db)
    | some appt =>
      if appt.userId ≠ uid then (fail 404 Code.APPT_NOT_FOUND, db)
      else if status = ApptStatus.RESCHEDULED then (fail 400 Code.INVALID_STATUS, db)
      else if appt.status = status then (ok200, db)  -- no-op: returns before Redis
      else
        let db1 := updateApptById db appt.id (fun a => { a with status := status })
        match cacheStep cacheOk with
        | Except.ok _ => (ok200, db1)
        | Except.error _ => (fail 500 Code.INTERNAL, db1)

/- ### `cancelAppointment` (appointment controller) -/

/-- The `data` of the conditional slot release on cancellation: status
AVAILABLE, `lockedAt`/`lockedBy` cleared (`lockExpires` is NOT cleared
by this handler). -/
def releaseOnCancel (s : Slot) : Slot :=
  { s with status := SlotStatus.AVAILABLE, lockedAt := none, lockedBy := none }

/-- Handler `cancelAppointment(req, res)`.  More than 24h before the
slot start it releases the slot; otherwise it keeps the slot booked.
The Redis invalidation is inside `try/catch`. -/
def cancelAppointment (uid apptId : Nat) (now : NowT) (cacheOk : Bool)
    (db : DB) : Resp × DB :=
  match db.appointments.find? (fun a => a.id == apptId && a.userId == uid) with
  | none => (fail 404 Code.APPT_NOT_FOUND, db)
  | some appt =>
    if appt.status ≠ ApptStatus.BOOKED then (fail 409 Code.ONLY_BOOKED_CANCEL, db)
    else
      -- the `timeSlot` relation selected with the appointment
      let slotOpt : Option Slot :=
        match appt.timeSlotId with
        | none => none
        | some sid => findSlot db sid
      let isMoreThan24h : Bool :=
        match slotOpt with
        | some s =>
          decide (getUtcDateTime s.date s.startTime - now.ms > 24 * 60 * 60 * 1000)
        | none => true
      -- transaction: optionally release the slot, always cancel the appointment
      let db1 :=
        match slotOpt with
        | some s =>
          if isMoreThan24h && s.status == SlotStatus.BOOKED then
            match appt.timeSlotId with
            | some sid => updateSlotById db sid releaseOnCancel
            | none => db
          else db
        | none => db
      let db2 := updateApptById db1 appt.id (fun a => { a with status := ApptStatus.CANCELLED })
      match cacheStep cacheOk with
      | _ => (⟨200, true, none, some isMoreThan24h⟩, db2)  -- caught: logged only

/- ### `rescheduleAppointment` (phase 1: lock the new slot) -/

/-- The `where` filter of the lock attempt in `rescheduleAppointment`:
`id, doctorId, OR [status AVAILABLE, (status LOCKED and lockExpires < now),
lockedBy = userId]`. -/
def reschedLockWhere (nsid did uid : Nat) (now : Int) (s : Slot) : Bool :=
  s.id == nsid && s.doctorId == did &&
    (s.status == SlotStatus.AVAILABLE ||
      (s.status == SlotStatus.LOCKED && lockExpLt s now) ||
      s.lockedBy == some uid)

/-- Handler `rescheduleAppointment(req, res)` for
`POST /appointments/:id/reschedule`: validates the appointment and the
reschedule window, then locks the new slot; no appointment or old-slot
state changes in this phase. -/
def rescheduleAppointment (uid apptId newTimeSlotId : Nat) (now : NowT)
    (db : DB) : Resp × DB :=
  match db.appointments.find? (fun a => a.id == apptId && a.userId == uid) with
  | none => (fail 404 Code.APPT_NOT_FOUND, db)
  | some appt =>
    if appt.status ≠ ApptStatus.BOOKED then (fail 409 Code.ONLY_BOOKED_RESCHEDULE, db)
    else
      let curSlot : Option Slot :=
        match appt.timeSlotId with
        | none => none
        | some sid => findSlot db sid
      match curSlot with
      | none => (fail 409 Code.NO_ACTIVE_SLOT, db)
      | some ts =>
        if appt.timeSlotId == some newTimeSlotId then (fail 400 Code.SAME_SLOT, db)
        else if getUtcDateTime ts.date ts.startTime - now.ms ≤ 24 * 60 * 60 * 1000 then
          (fail 400 Code.WITHIN_24H, db)
        else
          match db.slots.find? (fun s => s.id == newTimeSlotId && s.doctorId == appt.doctorId) with
          | none => (fail 404 Code.NEW_SLOT_NOT_FOUND, db)
          | some newSlot =>
            if getUtcDateTime newSlot.date newSlot.startTime ≤ now.ms then
              (fail 400 Code.NEW_SLOT_PAST, db)
            else
              let r := updateManySlots db
                (reschedLockWhere newTimeSlotId appt.doctorId uid now.ms)
                (applyLock uid now.ms (now.ms + 5 * 60 * 1000))
              if r.2 ≠ 1 then (fail 409 Code.LOCK_CONFLICT, r.1)
              else (ok200, r.1)

/- ### `confirmReschedule` (phase 2: atomic swap) -/

/-- The `where` filter of the conditional booking of the new slot inside
the `confirmReschedule` transaction. -/
def reschedBookWhere (nsid uid : Nat) (now : Int) (s : Slot) : Bool :=
  s.id == nsid && s.status == SlotStatus.LOCKED && s.lockedBy == some uid &&
    lockExpGt s now

/-- The `data` freeing the old slot in `confirmReschedule`: status
AVAILABLE, `lockedBy`/`lockExpires` cleared (`lockedAt` is NOT cleared
by this handler). -/
def releaseOldSlot (s : Slot) : Slot :=
  { s with status := SlotStatus.AVAILABLE, lockedBy := none, lockExpires := none }

/-- Row transform of the `appointment.update` marking the old
appointment RESCHEDULED (as applied to the whole table by the
by-unique-id update). -/
def reschedMark (aid : Nat) (x : Appointment) : Appointment :=
  if x.id == aid then { x with status := ApptStatus.RESCHEDULED } else x

/-- Row transform of the defensive-cleanup `appointment.updateMany`:
detach any appointment other than `naid` still pointing at `nsid`. -/
def detachOther (nsid naid : Nat) (x : Appointment) : Appointment :=
  if x.timeSlotId == some nsid && !(x.id == naid) then
    { x with timeSlotId := none }
  else x

/-- The body of the `prisma.$transaction` in `confirmReschedule`. -/
def txConfirmReschedule (uid newSlotId oldSlotId did : Nat) (appt : Appointment)
    (now : NowT) (db : DB) : Except Code (DB × Appointment) :=
  match db.slots.find? (fun s => s.id == newSlotId && s.doctorId == did) with
  | none => Except.error Code.NEW_SLOT_NOT_FOUND
  | some newSlot =>
    -- re-validate the lease: LOCKED, by this user, and not expired
    -- (JS: `newSlot.lockExpires && newSlot.lockExpires < nowUtc` only
    -- fails when lockExpires is non-null and strictly before now)
    if newSlot.status ≠ SlotStatus.LOCKED || newSlot.lockedBy ≠ some uid ||
        lockExpLt newSlot now.ms then
      Except.error Code.NEW_SLOT_NOT_LOCKED_BY_USER
    else if getUtcDateTime newSlot.date newSlot.startTime ≤ now.ms then
      Except.error Code.SLOT_ALREADY_STARTED_OR_PAST
    else
      let r := updateManySlots db (reschedBookWhere newSlotId uid now.ms) applyBook
      if r.2 ≠ 1 then Except.error Code.CONFLICT_NEW_SLOT
      else
        let db2 := updateApptById r.1 appt.id
          (fun a => { a with status := ApptStatus.RESCHEDULED })
        let db3 := updateSlotById db2 oldSlotId releaseOldSlot
        let c := createAppt db3 appt.userId appt.doctorId (some newSlotId)
          ApptStatus.BOOKED appt.notes
        -- defensive cleanup: detach any other appointment still pointing
        -- at the new slot
        let r2 := updateManyAppts c.1
          (fun a => a.timeSlotId == some newSlotId && !(a.id == c.2.id))
          (fun a => { a with timeSlotId := none })
        Except.ok (r2.1, c.2)

/-- The `errorMap` of `confirmReschedule`. -/
def reschedStatusMap (c : Code) : Nat :=
  match c with
  | Code.NEW_SLOT_NOT_FOUND => 404
  | Code.NEW_SLOT_NOT_LOCKED_BY_USER => 409
  | Code.SLOT_ALREADY_STARTED_OR_PAST => 400
  | Code.CONFLICT_NEW_SLOT => 409
  | _ => 500

/-- Handler `confirmReschedule(req, res)`.  Unlike `confirmBooking` and
`cancelAppointment`, the Redis invalidation after the commit is NOT
inside a `try/catch`: a Redis failure falls through to the outer `catch`
(where no `err.code` matches the `errorMap`) and produces the generic
500 response, although the transaction has already committed. -/
def confirmReschedule (uid appointmentId newSlotId oldSlotId did : Nat)
    (now : NowT) (cacheOk : Bool) (db : DB) : Resp × DB :=
  match db.appointments.find? (fun a => a.id == appointmentId && a.userId == uid) with
  | none => (fail 404 Code.APPT_NOT_FOUND, db)
  | some appt =>
    if appt.status ≠ ApptStatus.BOOKED then (fail 409 Code.ONLY_BOOKED_RESCHEDULE, db)
    else if appt.doctorId ≠ did then (fail 400 Code.DOCTOR_MISMATCH, db)
    else if appt.timeSlotId ≠ some oldSlotId then (fail 400 Code.OLD_SLOT_MISMATCH, db)
    else if oldSlotId = newSlotId then (fail 400 Code.SAME_SLOT, db)
    else
      match txConfirmReschedule uid newSlotId oldSlotId did appt now db with
      | Except.error c => (fail (reschedStatusMap c) c, db)
      | Except.ok (db', _appt) =>
        match cacheStep cacheOk with
        | Except.ok _ => (ok200, db')
        | Except.error _ => (fail 500 Code.INTERNAL, db')

/- ### Invariants and well-formedness -/

/-- Number of appointments with status BOOKED referencing slot `sid`. -/
def countBooked (db : DB) (sid : Nat) : Nat :=
  db.appointments.countP (fun a => a.timeSlotId == some sid && a.status == ApptStatus.BOOKED)

/-- The Appointment-store invariant: each time slot is referenced by at
most one BOOKED appointment. -/
def apptInv (db : DB) : Prop := ∀ sid : Nat, countBooked db sid ≤ 1

/-- Store well-formedness: row ids are unique in each table and Prisma's
fresh-id counter is ahead of every existing appointment id. -/
def DB.WF (db : DB) : Prop :=
  (db.slots.map Slot.id).Nodup ∧ (db.appointments.map Appointment.id).Nodup ∧
    (db.users.map User.id).Nodup ∧ ∀ a ∈ db.appointments, a.id < db.nextApptId

instance (db : DB) : Decidable (DB.WF db) := by
  unfold DB.WF
  infer_instance

/- ### Concrete fixtures used by the witnesses and counterexamples

All times are small values near the epoch: day 0 starts at ms 0, the
next day at ms 86400000, day 10 at ms 864000000.  A 5-minute lease
spans 300000 ms. -/

/-- A slot locked by user 10 at ms 0 whose lease expired at ms 300000. -/
def expSlot : Slot :=
  ⟨1, 1, 86400000, ⟨10, 0⟩, ⟨10, 30⟩, SlotStatus.LOCKED, some 10, some 0, some 300000⟩

/-- Store holding only `expSlot`. -/
def expDb : DB := ⟨[expSlot], [], [], 1⟩

/-- Time 00:06 of day 0 (ms 360000), one minute after the lease expired. -/
def nowSix : NowT := ⟨0, 0, 6⟩

/-- An available slot of doctor 1, ten days out. -/
def freeSlot : Slot :=
  ⟨1, 1, 864000000, ⟨10, 0⟩, ⟨10, 30⟩, SlotStatus.AVAILABLE, none, none, none⟩

/-- Two OTP-verified users and `freeSlot`: the start state of the C2
double-booking trace. -/
def traceDb : DB := ⟨[freeSlot], [], [⟨10, some 600000⟩, ⟨20, some 600000⟩], 1⟩

/-- Midnight of day 0. -/
def nowZero : NowT := ⟨0, 0, 0⟩

/-- Trace: user 10 locks slot 1. -/
def trace1 : Resp × DB := lockTimeSlot 1 1 10 nowZero traceDb

/-- Trace: user 10 books slot 1 (appointment 1). -/
def trace2 : Resp × DB := confirmBooking 1 1 none 10 nowZero true trace1.2

/-- Trace: user 10 cancels appointment 1 more than 24h ahead, releasing
slot 1. -/
def trace3 : Resp × DB := cancelAppointment 10 1 nowZero true trace2.2

/-- Trace: user 20 locks the released slot 1. -/
def trace4 : Resp × DB := lockTimeSlot 1 1 20 nowZero trace3.2

/-- Trace: user 20 books slot 1 (appointment 2). -/
def trace5 : Resp × DB := confirmBooking 1 1 none 20 nowZero true trace4.2

/-- Trace: user 10 flips the cancelled appointment 1 back to BOOKED via
`updateAppointmentStatus`. -/
def trace6 : Resp × DB := updateAppointmentStatus 10 1 ApptStatus.BOOKED true trace5.2

/-- A store whose slot 1 is locked by user 10 with a live lease, slot 2
is free, and user 10 is OTP-verified until ms 600000: a successful
booking input. -/
def bookDb : DB :=
  ⟨[⟨1, 1, 864000000, ⟨10, 0⟩, ⟨10, 30⟩, SlotStatus.LOCKED, some 10, some 0, some 300000⟩,
    ⟨2, 1, 864000000, ⟨11, 0⟩, ⟨11, 30⟩, SlotStatus.AVAILABLE, none, none, none⟩],
   [], [⟨10, some 600000⟩], 1⟩

/-- Store with `expSlot` plus an OTP-verified user 10: isolates the expired-lease
check of `confirmBooking`. -/
def expOtpDb : DB := ⟨[expSlot], [], [⟨10, some 600000⟩], 1⟩

/-- A booked appointment (id 1, user 10) on the booked slot 1, ten days
out; user and doctor fixtures for cancellation/reschedule witnesses. -/
def bookedDb : DB :=
  ⟨[⟨1, 1, 864000000, ⟨10, 0⟩, ⟨10, 30⟩, SlotStatus.BOOKED, none, none, none⟩],
   [⟨1, 10, 1, some 1, ApptStatus.BOOKED, none⟩], [⟨10, none⟩], 2⟩

/-- Like `bookedDb` but the slot starts exactly 24h0m0s after
`nowZero`: day 1 at 00:00. -/
def boundaryDb : DB :=
  ⟨[⟨1, 1, 86400000, ⟨0, 0⟩, ⟨0, 30⟩, SlotStatus.BOOKED, none, none, none⟩],
   [⟨1, 10, 1, some 1, ApptStatus.BOOKED, none⟩], [⟨10, none⟩], 2⟩

/-- A reschedule-confirm input: appointment 1 (user 10) booked on slot
1, new slot 2 locked by user 10 with a live lease, both of doctor 1. -/
def reschedDb : DB :=
  ⟨[⟨1, 1, 864000000, ⟨10, 0⟩, ⟨10, 30⟩, SlotStatus.BOOKED, none, none, none⟩,
    ⟨2, 1, 864000000, ⟨11, 0⟩, ⟨11, 30⟩, SlotStatus.LOCKED, some 10, some 0, some 300000⟩],
   [⟨1, 10, 1, some 1, ApptStatus.BOOKED, none⟩], [⟨10, none⟩], 2⟩

/-- A store with a RESCHEDULED appointment 1 (user 10) keeping its
historical pointer to slot 1. -/
def reschedTermDb : DB :=
  ⟨[⟨1, 1, 864000000, ⟨10, 0⟩, ⟨10, 30⟩, SlotStatus.AVAILABLE, none, none, none⟩],
   [⟨1, 10, 1, some 1, ApptStatus.RESCHEDULED, none⟩], [⟨10, none⟩], 2⟩

/- ### List toolkit -/

theorem countP_map_le {α : Type} (p : α → Bool) (f : α → α) (l : List α)
    (h : ∀ a, p (f a) = true → p a = true) :
    (l.map f).countP p ≤ l.countP p := by
  induction l with
  | nil => simp
  | cons a t ih =>
    rw [List.map_cons, List.countP_cons, List.countP_cons]
    have hle : (if p (f a) = true then 1 else 0) ≤ (if p a = true then 1 else 0) := by
      cases hfa : p (f a)
      · simp
      · simp [h a hfa]
    omega

theorem find?_map_eq {α : Type} (l : List α) (f : α → α) (p : α → Bool)
    (hp : ∀ a, p (f a) = p a) :
    (l.map f).find? p = (l.find? p).map f := by
  induction l with
  | nil => rfl
  | cons a t ih =>
    simp only [List.map_cons, List.find?_cons, hp a]
    cases hpa : p a
    · simpa using ih
    · rfl

theorem find?_eq_of_nodup_key {α : Type} (k : α → Nat) (l : List α)
    (hnd : (l.map k).Nodup) (a : α) (ha : a ∈ l) (n : Nat) (hk : k a = n) :
    l.find? (fun x => k x == n) = some a := by
  induction l with
  | nil => cases ha
  | cons b t ih =>
    rw [List.map_cons, List.nodup_cons] at hnd
    rcases List.mem_cons.mp ha with hab | hat
    · subst hab
      apply List.find?_cons_of_pos
      simp [hk]
    · have h2 : n ∈ List.map k t := hk ▸ List.mem_map_of_mem k hat
      have hkb : ¬((fun x => k x == n) b = true) := by
        simp only [beq_iff_eq]
        intro hbn
        apply hnd.1
        rw [hbn]
        exact h2
      have step : List.find? (fun x => k x == n) (b :: t) =
          List.find? (fun x => k x == n) t := by
        apply List.find?_cons_of_neg
        exact hkb
      rw [step]
      exact ih hnd.2 hat

theorem countP_singleton {α : Type} (p : α → Bool) (a : α) :
    List.countP p [a] = if p a then 1 else 0 := by
  simp [List.countP_cons]

/- ### Characterization of the transactions -/

/-- What a committed `confirmBooking` transaction did to the store. -/
theorem txConfirmBooking_ok {did tsId uid : Nat} {notes : Option String}
    {slot : Slot} {now : NowT} {db db' : DB} {a : Appointment}
    (h : txConfirmBooking did tsId uid notes slot now db = Except.ok (db', a)) :
    db.slots.countP (bookWhere tsId did uid now.ms) = 1 ∧
    db.appointments.find? (fun x =>
      x.timeSlotId == some tsId && x.status == ApptStatus.BOOKED) = none ∧
    a = ⟨db.nextApptId, uid, did, some tsId, ApptStatus.BOOKED, notes⟩ ∧
    db' = { slots := db.slots.map (fun s =>
              if bookWhere tsId did uid now.ms s then applyBook s else s),
            appointments := db.appointments ++ [a],
            users := db.users.map (fun u =>
              if u.id == uid then { u with otpVerifiedUntil := none } else u),
            nextApptId := db.nextApptId + 1 } := by
  simp only [txConfirmBooking] at h
  split at h
  · exact absurd h (by simp)
  · split at h
    · exact absurd h (by simp)
    · split at h
      · exact absurd h (by simp)
      · split at h
        · exact absurd h (by simp)
        · rename_i h1 h2 h3 h4
          rw [Except.ok.injEq, Prod.mk.injEq] at h
          refine ⟨?_, h4, ?_, ?_⟩
          · simp only [updateManySlots] at h2
            omega
          · rw [← h.2]
            rfl
          · rw [← h.1, ← h.2]
            rfl

/-- Spec of the handler: `confirmBooking` either fails with a typed error and an untouched
store, or commits its transaction after all prechecks passed. -/
theorem confirmBooking_spec (did tsId : Nat) (notes : Option String) (uid : Nat)
    (now : NowT) (cacheOk : Bool) (db : DB) :
    (∃ c, confirmBooking did tsId notes uid now cacheOk db
        = (fail (confirmStatusMap c) c, db)) ∨
    (∃ slot db' a,
      db.slots.find? (fun s => s.id == tsId) = some slot ∧
      slot.doctorId = did ∧ slot.status = SlotStatus.LOCKED ∧
      slot.lockedBy = some uid ∧ lockExpGt slot now.ms = true ∧
      otpOk db uid now = true ∧
      txConfirmBooking did tsId uid notes slot now db = Except.ok (db', a) ∧
      confirmBooking did tsId notes uid now cacheOk db = (created201, db')) := by
  simp only [confirmBooking]
  split
  · exact Or.inl ⟨Code.SLOT_NOT_FOUND, rfl⟩
  · rename_i slot hfind
    split
    · exact Or.inl ⟨Code.SLOT_NOT_FOUND, rfl⟩
    · rename_i hdoc
      split
      · exact Or.inl ⟨Code.SLOT_ALREADY_BOOKED, rfl⟩
      · split
        · exact Or.inl ⟨Code.OTP_REQUIRED, rfl⟩
        · rename_i hotp
          split
          · exact Or.inl ⟨Code.LOCK_INVALID, rfl⟩
          · rename_i hlock
            split
            · rename_i c htx
              exact Or.inl ⟨c, rfl⟩
            · rename_i db2 a2 htx
              right
              have hdoc' : slot.doctorId = did := not_not.mp hdoc
              have hotp' : otpOk db uid now = true := by
                simpa using hotp
              have hlock' : (slot.status = SlotStatus.LOCKED ∧
                  slot.lockedBy = some uid) ∧ lockExpGt slot now.ms = true := by
                have hb : (slot.status == SlotStatus.LOCKED &&
                    (slot.lockedBy == some uid) && lockExpGt slot now.ms) = true := by
                  simpa using hlock
                simpa [Bool.and_eq_true, beq_iff_eq] using hb
              refine ⟨slot, db2, a2, hfind, hdoc', hlock'.1.1, hlock'.1.2,
                hlock'.2, hotp', htx, ?_⟩
              split <;> rfl

/-- Everything a successful `confirmBooking` guarantees. -/
theorem confirmBooking_ok_shape (did tsId : Nat) (notes : Option String)
    (uid : Nat) (now : NowT) (cacheOk : Bool) (db : DB)
    (h : (confirmBooking did tsId notes uid now cacheOk db).1.success = true) :
    ∃ slot,
      db.slots.find? (fun s => s.id == tsId) = some slot ∧
      slot.doctorId = did ∧ slot.status = SlotStatus.LOCKED ∧
      slot.lockedBy = some uid ∧ lockExpGt slot now.ms = true ∧
      otpOk db uid now = true ∧
      db.appointments.find? (fun x =>
        x.timeSlotId == some tsId && x.status == ApptStatus.BOOKED) = none ∧
      (confirmBooking did tsId notes uid now cacheOk db).2
        = { slots := db.slots.map (fun s =>
              if bookWhere tsId did uid now.ms s then applyBook s else s),
            appointments := db.appointments ++
              [⟨db.nextApptId, uid, did, some tsId, ApptStatus.BOOKED, notes⟩],
            users := db.users.map (fun u =>
              if u.id == uid then { u with otpVerifiedUntil := none } else u),
            nextApptId := db.nextApptId + 1 } ∧
      (confirmBooking did tsId notes uid now cacheOk db).1 = created201 := by
  rcases confirmBooking_spec did tsId notes uid now cacheOk db with ⟨c, he⟩ | hok
  · rw [he] at h
    simp [fail] at h
  · rcases hok with ⟨slot, db', a, hfind, hdoc, hst, hlb, hexp, hotp, htx, hres⟩
    rcases txConfirmBooking_ok htx with ⟨hcount, hnone, ha, hdb'⟩
    subst ha
    refine ⟨slot, hfind, hdoc, hst, hlb, hexp, hotp, hnone, ?_, ?_⟩
    · rw [hres, hdb']
    · rw [hres]

/-- A failed `confirmBooking` leaves the store untouched. -/
theorem confirmBooking_fail_shape (did tsId : Nat) (notes : Option String)
    (uid : Nat) (now : NowT) (cacheOk : Bool) (db : DB)
    (h : (confirmBooking did tsId notes uid now cacheOk db).1.success = false) :
    (confirmBooking did tsId notes uid now cacheOk db).2 = db ∧
    ∃ c, (confirmBooking did tsId notes uid now cacheOk db).1
      = fail (confirmStatusMap c) c := by
  rcases confirmBooking_spec did tsId notes uid now cacheOk db with ⟨c, he⟩ | hok
  · rw [he]
    exact ⟨rfl, c, rfl⟩
  · rcases hok with ⟨slot, db', a, _, _, _, _, _, _, _, hres⟩
    rw [hres] at h
    simp [created201] at h

/-- The predicate of `find?` by id is invariant under an id-preserving map. -/
theorem find?_id_map {α : Type} (key : α → Nat) (l : List α) (f : α → α)
    (hf : ∀ x, key (f x) = key x) (n : Nat) :
    (l.map f).find? (fun x => key x == n) = (l.find? (fun x => key x == n)).map f := by
  apply find?_map_eq
  intro x
  rw [hf x]

theorem slot_found_id {db : DB} {tsId : Nat} {slot : Slot}
    (h : db.slots.find? (fun s => s.id == tsId) = some slot) : slot.id = tsId := by
  have := List.find?_some h
  simpa using this

theorem reschedMark_id (aid : Nat) (x : Appointment) :
    (reschedMark aid x).id = x.id := by
  unfold reschedMark
  split <;> rfl

theorem reschedMark_demote (aid sid : Nat) (x : Appointment)
    (h : ((reschedMark aid x).timeSlotId == some sid &&
      (reschedMark aid x).status == ApptStatus.BOOKED) = true) :
    (x.timeSlotId == some sid && x.status == ApptStatus.BOOKED) = true := by
  unfold reschedMark at h
  split at h
  · rw [Bool.and_eq_true] at h
    exact absurd h.2 (by simp)
  · exact h

theorem detachOther_demote (nsid naid sid : Nat) (x : Appointment)
    (h : ((detachOther nsid naid x).timeSlotId == some sid &&
      (detachOther nsid naid x).status == ApptStatus.BOOKED) = true) :
    (x.timeSlotId == some sid && x.status == ApptStatus.BOOKED) = true := by
  unfold detachOther at h
  split at h
  · rw [Bool.and_eq_true] at h
    exact absurd h.1 (by simp)
  · exact h

theorem detachOther_not_booked_on (nsid naid : Nat) (x : Appointment)
    (hx : x.id ≠ naid) :
    ((detachOther nsid naid x).timeSlotId == some nsid &&
      (detachOther nsid naid x).status == ApptStatus.BOOKED) = false := by
  unfold detachOther
  split
  · simp
  · rename_i hc
    have hid : (x.id == naid) = false := beq_eq_false_iff_ne.mpr hx
    cases hts : (x.timeSlotId == some nsid) with
    | false => simp
    | true =>
      exfalso
      apply hc
      rw [hts, hid]
      rfl

theorem detachOther_self (nsid : Nat) (na : Appointment) :
    detachOther nsid na.id na = na := by
  unfold detachOther
  rw [if_neg]
  simp

/-- Evaluating `confirmBooking` when the slot gate passes but the OTP
gate fails. -/
theorem confirmBooking_otp_fail (did tsId : Nat) (notes : Option String)
    (uid : Nat) (now : NowT) (cacheOk : Bool) (db : DB) (slot : Slot)
    (hfind : db.slots.find? (fun s => s.id == tsId) = some slot)
    (hdoc : slot.doctorId = did) (hsb : slot.status ≠ SlotStatus.BOOKED)
    (hotpf : otpOk db uid now = false) :
    confirmBooking did tsId notes uid now cacheOk db
      = (fail 403 Code.OTP_REQUIRED, db) := by
  simp [confirmBooking, hfind, hdoc, hsb, hotpf]

/-- A user whose stored `otpVerifiedUntil` is null never passes the OTP
gate. -/
theorem otpOk_false_of_cleared {db : DB} {uid : Nat} {u : User}
    (hu : findUser db uid = some u) (hn : u.otpVerifiedUntil = none)
    (now : NowT) : otpOk db uid now = false := by
  simp [otpOk, hu, hn]

/-- A passing OTP gate means the user exists with a strictly later
`otpVerifiedUntil`. -/
theorem otpOk_true_elim {db : DB} {uid : Nat} {now : NowT}
    (h : otpOk db uid now = true) :
    ∃ u t, findUser db uid = some u ∧ u.otpVerifiedUntil = some t ∧ now.ms < t := by
  unfold otpOk at h
  cases hfu : findUser db uid with
  | none =>
    rw [hfu] at h
    simp at h
  | some u =>
    rw [hfu] at h
    dsimp only at h
    cases hot : u.otpVerifiedUntil with
    | none =>
      rw [hot] at h
      simp at h
    | some t =>
      rw [hot] at h
      dsimp only at h
      exact ⟨u, t, rfl, hot, by simpa using h⟩

/-- Spec of the handler: `lockTimeSlot` either reports a failure or, with all gates passed on
an AVAILABLE slot, applies the conditional lock update. -/
theorem lockTimeSlot_spec (did sid uid : Nat) (now : NowT) (db : DB) :
    ((lockTimeSlot did sid uid now db).1.success = false) ∨
    (∃ slot, db.slots.find? (fun s => s.id == sid && s.doctorId == did) = some slot ∧
      slot.status = SlotStatus.AVAILABLE ∧
      lockTimeSlot did sid uid now db = (ok200,
        { db with slots := db.slots.map (fun s =>
            if lockWhere sid did uid now.ms s then
              applyLock uid now.ms (now.ms + 5 * 60 * 1000) s
            else s) })) := by
  simp only [lockTimeSlot]
  split
  · exact Or.inl rfl
  · rename_i slot hfind
    split
    · exact Or.inl rfl
    · rename_i hb
      split
      · exact Or.inl rfl
      · rename_i hl
        split
        · exact Or.inl rfl
        · split
          · exact Or.inl rfl
          · split
            · exact Or.inl rfl
            · right
              refine ⟨slot, hfind, ?_, rfl⟩
              cases hst : slot.status with
              | AVAILABLE => rfl
              | LOCKED => exact absurd hst hl
              | BOOKED => exact absurd hst hb

/-- What a successful `lockTimeSlot` guarantees. -/
theorem lockTimeSlot_ok_shape (did sid uid : Nat) (now : NowT) (db : DB)
    (h : (lockTimeSlot did sid uid now db).1.success = true) :
    ∃ slot, db.slots.find? (fun s => s.id == sid && s.doctorId == did) = some slot ∧
      slot.status = SlotStatus.AVAILABLE ∧
      (lockTimeSlot did sid uid now db).2 = { db with slots := db.slots.map (fun s =>
          if lockWhere sid did uid now.ms s then
            applyLock uid now.ms (now.ms + 5 * 60 * 1000) s
          else s) } := by
  rcases lockTimeSlot_spec did sid uid now db with hfail | ⟨slot, hfind, hav, heq⟩
  · rw [h] at hfail
    cases hfail
  · exact ⟨slot, hfind, hav, by rw [heq]⟩

theorem slot_found_id_doc {l : List Slot} {sid did : Nat} {slot : Slot}
    (h : l.find? (fun s => s.id == sid && s.doctorId == did) = some slot) :
    slot.id = sid ∧ slot.doctorId = did := by
  have := List.find?_some h
  simpa [Bool.and_eq_true] using this

/- ### The claims -/

/-- Claim C3: `confirmBooking` is atomic.  On every successful run the
slot was LOCKED by the requesting user with an unexpired lease and is
BOOKED (lease fields cleared) afterwards, exactly one BOOKED appointment
row for that slot is appended (none existed before), and the user's
`otpVerifiedUntil` is cleared; on every failed run the store is exactly
the pre-state, so a state with the slot BOOKED but no appointment row is
unreachable through this operation. -/
theorem C3_confirmBooking_atomic (did tsId : Nat) (notes : Option String)
    (uid : Nat) (now : NowT) (cacheOk : Bool) (db : DB) :
    ((confirmBooking did tsId notes uid now cacheOk db).1.success = true →
      (∃ slot, db.slots.find? (fun s => s.id == tsId) = some slot ∧
        slot.doctorId = did ∧ slot.status = SlotStatus.LOCKED ∧
        slot.lockedBy = some uid ∧ lockExpGt slot now.ms = true) ∧
      (∃ slot', findSlot (confirmBooking did tsId notes uid now cacheOk db).2 tsId
          = some slot' ∧
        slot'.status = SlotStatus.BOOKED ∧ slot'.lockedBy = none ∧
        slot'.lockedAt = none ∧ slot'.lockExpires = none) ∧
      (confirmBooking did tsId notes uid now cacheOk db).2.appointments
        = db.appointments ++
            [⟨db.nextApptId, uid, did, some tsId, ApptStatus.BOOKED, notes⟩] ∧
      countBooked db tsId = 0 ∧
      countBooked (confirmBooking did tsId notes uid now cacheOk db).2 tsId = 1 ∧
      (∃ u', findUser (confirmBooking did tsId notes uid now cacheOk db).2 uid
          = some u' ∧ u'.otpVerifiedUntil = none)) ∧
    ((confirmBooking did tsId notes uid now cacheOk db).1.success = false →
      (confirmBooking did tsId notes uid now cacheOk db).2 = db) := by
  constructor
  · intro h
    obtain ⟨slot, hfind, hdoc, hst, hlb, hexp, hotp, hnone, hdb, _⟩ :=
      confirmBooking_ok_shape did tsId notes uid now cacheOk db h
    have hid : slot.id = tsId := slot_found_id hfind
    have hw : bookWhere tsId did uid now.ms slot = true := by
      simp [bookWhere, hid, hdoc, hst, hlb, hexp]
    have hcount0 : countBooked db tsId = 0 :=
      List.countP_eq_zero.mpr (List.find?_eq_none.mp hnone)
    refine ⟨⟨slot, hfind, hdoc, hst, hlb, hexp⟩, ?_, ?_, hcount0, ?_, ?_⟩
    · have hfound : (db.slots.map (fun s =>
          if bookWhere tsId did uid now.ms s then applyBook s else s)).find?
            (fun s => s.id == tsId) = some (applyBook slot) := by
        rw [find?_id_map Slot.id db.slots
          (fun s => if bookWhere tsId did uid now.ms s then applyBook s else s)
          (by
            intro x
            by_cases hx : bookWhere tsId did uid now.ms x = true <;>
              simp [hx, applyBook]) tsId]
        rw [hfind]
        simp [hw]
      refine ⟨applyBook slot, ?_, rfl, rfl, rfl, rfl⟩
      rw [hdb]
      exact hfound
    · rw [hdb]
    · have hone : (db.appointments ++
          [(⟨db.nextApptId, uid, did, some tsId, ApptStatus.BOOKED, notes⟩ :
            Appointment)]).countP
            (fun x => x.timeSlotId == some tsId && x.status == ApptStatus.BOOKED)
          = 1 := by
        rw [List.countP_append]
        have h0 : db.appointments.countP (fun x =>
            x.timeSlotId == some tsId && x.status == ApptStatus.BOOKED) = 0 := hcount0
        rw [h0, countP_singleton]
        simp
      rw [hdb]
      exact hone
    · obtain ⟨u, hu⟩ : ∃ u, db.users.find? (fun x => x.id == uid) = some u := by
        unfold otpOk findUser at hotp
        cases hfu : db.users.find? (fun x => x.id == uid) with
        | none =>
          rw [hfu] at hotp
          simp at hotp
        | some u => exact ⟨u, rfl⟩
      have huid : (u.id == uid) = true := by
        simpa using List.find?_some hu
      have husers : (db.users.map (fun u =>
          if u.id == uid then { u with otpVerifiedUntil := none } else u)).find?
            (fun x => x.id == uid) = some { u with otpVerifiedUntil := none } := by
        rw [find?_id_map User.id db.users
          (fun u => if u.id == uid then { u with otpVerifiedUntil := none } else u)
          (by
            intro x
            by_cases hx : (x.id == uid) = true <;> simp [hx]) uid]
        rw [hu]
        have hueq : u.id = uid := by simpa using huid
        simp [hueq]
      refine ⟨{ u with otpVerifiedUntil := none }, ?_, rfl⟩
      rw [hdb]
      exact husers
  · intro h
    exact (confirmBooking_fail_shape did tsId notes uid now cacheOk db h).1

/-- Witness for C3: a concrete successful booking, checked through
`C3_confirmBooking_atomic`. -/
theorem C3_witness :
    (confirmBooking 1 1 none 10 nowZero true bookDb).1.success = true ∧
    countBooked (confirmBooking 1 1 none 10 nowZero true bookDb).2 1 = 1 :=
  ⟨by decide,
    ((C3_confirmBooking_atomic 1 1 none 10 nowZero true bookDb).1
      (by decide)).2.2.2.2.1⟩

/-- Claim C6: a lease acquired at time `now` carries
`lockExpires = now + 5 minutes`, and once a slot's `lockExpires` is
`≤ now` (the lease has expired) `confirmBooking` always fails without
changing the store, and — when the slot/doctor/OTP gates pass so the
lease check is the one that decides — it fails precisely with
`LOCK_INVALID`. -/
theorem C6_lease_expiry :
    (∀ did sid uid now db, DB.WF db →
      (lockTimeSlot did sid uid now db).1.success = true →
      ∃ s', findSlot (lockTimeSlot did sid uid now db).2 sid = some s' ∧
        s'.status = SlotStatus.LOCKED ∧ s'.lockedBy = some uid ∧
        s'.lockedAt = some now.ms ∧
        s'.lockExpires = some (now.ms + 5 * 60 * 1000)) ∧
    (∀ did tsId notes uid now cacheOk db slot e,
      db.slots.find? (fun s => s.id == tsId) = some slot →
      slot.lockExpires = some e → e ≤ now.ms →
      (confirmBooking did tsId notes uid now cacheOk db).1.success = false ∧
      (confirmBooking did tsId notes uid now cacheOk db).2 = db ∧
      (slot.doctorId = did → slot.status = SlotStatus.LOCKED →
        otpOk db uid now = true →
        confirmBooking did tsId notes uid now cacheOk db
          = (fail 409 Code.LOCK_INVALID, db))) := by
  constructor
  · intro did sid uid now db hwf hsucc
    obtain ⟨slot, hfind, hav, hdb⟩ := lockTimeSlot_ok_shape did sid uid now db hsucc
    obtain ⟨hid, hdoc⟩ := slot_found_id_doc hfind
    have hmem : slot ∈ db.slots := List.mem_of_find?_eq_some hfind
    have hbyid : db.slots.find? (fun s => s.id == sid) = some slot :=
      find?_eq_of_nodup_key Slot.id db.slots hwf.1 slot hmem sid hid
    have hw : lockWhere sid did uid now.ms slot = true := by
      simp [lockWhere, hid, hdoc, hav]
    have hfound : (db.slots.map (fun s =>
        if lockWhere sid did uid now.ms s then
          applyLock uid now.ms (now.ms + 5 * 60 * 1000) s
        else s)).find? (fun s => s.id == sid)
          = some (applyLock uid now.ms (now.ms + 5 * 60 * 1000) slot) := by
      rw [find?_id_map Slot.id db.slots
        (fun s => if lockWhere sid did uid now.ms s then
          applyLock uid now.ms (now.ms + 5 * 60 * 1000) s else s)
        (by
          intro x
          by_cases hx : lockWhere sid did uid now.ms x = true <;>
            simp [hx, applyLock]) sid]
      rw [hbyid]
      simp [hw]
    refine ⟨applyLock uid now.ms (now.ms + 5 * 60 * 1000) slot, ?_, rfl, rfl, rfl, rfl⟩
    rw [hdb]
    exact hfound
  · intro did tsId notes uid now cacheOk db slot e hfind hexpEq hle
    have hgtf : lockExpGt slot now.ms = false := by
      simp [lockExpGt, hexpEq]
      exact hle
    have hsucc : (confirmBooking did tsId notes uid now cacheOk db).1.success = false := by
      cases hs : (confirmBooking did tsId notes uid now cacheOk db).1.success with
      | true =>
        obtain ⟨slot', hfind', _, _, _, hexp', _⟩ :=
          confirmBooking_ok_shape did tsId notes uid now cacheOk db hs
        rw [hfind] at hfind'
        cases hfind'
        rw [hgtf] at hexp'
        cases hexp'
      | false => rfl
    refine ⟨hsucc, (confirmBooking_fail_shape did tsId notes uid now cacheOk db hsucc).1, ?_⟩
    intro hdoc hstL hotp
    simp [confirmBooking, hfind, hdoc, hstL, hotp, hgtf]

/-- Witness for C6: user 10 locks the free slot 2 of `bookDb` and the
lease carries a 5-minute expiry; on `expOtpDb` (expired lease, valid
OTP) booking confirmation at 00:06 fails with `LOCK_INVALID`. -/
theorem C6_witness :
    (∃ s', findSlot (lockTimeSlot 1 2 10 nowZero bookDb).2 2 = some s' ∧
      s'.status = SlotStatus.LOCKED ∧ s'.lockedBy = some 10 ∧
      s'.lockedAt = some nowZero.ms ∧
      s'.lockExpires = some (nowZero.ms + 5 * 60 * 1000)) ∧
    confirmBooking 1 1 none 10 nowSix true expOtpDb
      = (fail 409 Code.LOCK_INVALID, expOtpDb) :=
  ⟨C6_lease_expiry.1 1 2 10 nowZero bookDb (by decide) (by decide),
   (C6_lease_expiry.2 1 1 none 10 nowSix true expOtpDb expSlot 300000
      (by decide) (by decide) (by decide)).2.2 (by decide) (by decide) (by decide)⟩

/-- Claim C7: `confirmBooking` permits booking only while
`now < otpVerifiedUntil`; with the slot gate passed and the OTP gate
failed it returns `OTP_REQUIRED` and an untouched store; every
successful booking clears `otpVerifiedUntil`, so an immediately
following attempt by the same user (against any non-booked slot of the
post-state) fails with `OTP_REQUIRED`. -/
theorem C7_otp_gate (did tsId : Nat) (notes : Option String) (uid : Nat)
    (now : NowT) (cacheOk : Bool) (db : DB) :
    ((confirmBooking did tsId notes uid now cacheOk db).1.success = true →
      ∃ u t, findUser db uid = some u ∧ u.otpVerifiedUntil = some t ∧ now.ms < t) ∧
    (∀ slot, db.slots.find? (fun s => s.id == tsId) = some slot →
      slot.doctorId = did → slot.status ≠ SlotStatus.BOOKED →
      otpOk db uid now = false →
      confirmBooking did tsId notes uid now cacheOk db
        = (fail 403 Code.OTP_REQUIRED, db)) ∧
    ((confirmBooking did tsId notes uid now cacheOk db).1.success = true →
      ∃ u', findUser (confirmBooking did tsId notes uid now cacheOk db).2 uid
        = some u' ∧ u'.otpVerifiedUntil = none) ∧
    ((confirmBooking did tsId notes uid now cacheOk db).1.success = true →
      ∀ did2 tsId2 notes2 now2 cacheOk2 slot2,
        findSlot (confirmBooking did tsId notes uid now cacheOk db).2 tsId2
          = some slot2 →
        slot2.doctorId = did2 → slot2.status ≠ SlotStatus.BOOKED →
        confirmBooking did2 tsId2 notes2 uid now2 cacheOk2
            (confirmBooking did tsId notes uid now cacheOk db).2
          = (fail 403 Code.OTP_REQUIRED,
             (confirmBooking did tsId notes uid now cacheOk db).2)) := by
  have shape := confirmBooking_ok_shape did tsId notes uid now cacheOk db
  refine ⟨?_, ?_, ?_, ?_⟩
  · intro h
    obtain ⟨slot, _, _, _, _, _, hotp, _⟩ := shape h
    exact otpOk_true_elim hotp
  · intro slot hfind hdoc hsb hotpf
    exact confirmBooking_otp_fail did tsId notes uid now cacheOk db slot
      hfind hdoc hsb hotpf
  · intro h
    obtain ⟨slot, hfind, hdoc, hst, hlb, hexp, hotp, hnone, hdb, _⟩ := shape h
    obtain ⟨u, hu⟩ : ∃ u, db.users.find? (fun x => x.id == uid) = some u := by
      unfold otpOk findUser at hotp
      cases hfu : db.users.find? (fun x => x.id == uid) with
      | none =>
        rw [hfu] at hotp
        simp at hotp
      | some u => exact ⟨u, rfl⟩
    have huid : (u.id == uid) = true := by
      simpa using List.find?_some hu
    have hueq : u.id = uid := by simpa using huid
    have husers : (db.users.map (fun v =>
        if v.id == uid then { v with otpVerifiedUntil := none } else v)).find?
          (fun x => x.id == uid) = some { u with otpVerifiedUntil := none } := by
      rw [find?_id_map User.id db.users
        (fun v => if v.id == uid then { v with otpVerifiedUntil := none } else v)
        (by
          intro x
          by_cases hx : (x.id == uid) = true <;> simp [hx]) uid]
      rw [hu]
      simp [hueq]
    refine ⟨{ u with otpVerifiedUntil := none }, ?_, rfl⟩
    rw [hdb]
    exact husers
  · intro h did2 tsId2 notes2 now2 cacheOk2 slot2 hfind2 hdoc2 hsb2
    obtain ⟨u', hu', hn'⟩ :
        ∃ u', findUser (confirmBooking did tsId notes uid now cacheOk db).2 uid
          = some u' ∧ u'.otpVerifiedUntil = none := by
      obtain ⟨slot, hfind, hdoc, hst, hlb, hexp, hotp, hnone, hdb, _⟩ := shape h
      obtain ⟨u, hu⟩ : ∃ u, db.users.find? (fun x => x.id == uid) = some u := by
        unfold otpOk findUser at hotp
        cases hfu : db.users.find? (fun x => x.id == uid) with
        | none =>
          rw [hfu] at hotp
          simp at hotp
        | some u => exact ⟨u, rfl⟩
      have huid : (u.id == uid) = true := by
        simpa using List.find?_some hu
      have hueq : u.id = uid := by simpa using huid
      have husers : (db.users.map (fun v =>
          if v.id == uid then { v with otpVerifiedUntil := none } else v)).find?
            (fun x => x.id == uid) = some { u with otpVerifiedUntil := none } := by
        rw [find?_id_map User.id db.users
          (fun v => if v.id == uid then { v with otpVerifiedUntil := none } else v)
          (by
            intro x
            by_cases hx : (x.id == uid) = true <;> simp [hx]) uid]
        rw [hu]
        simp [hueq]
      refine ⟨{ u with otpVerifiedUntil := none }, ?_, rfl⟩
      rw [hdb]
      exact husers
    have hotpf := otpOk_false_of_cleared hu' hn' now2
    exact confirmBooking_otp_fail did2 tsId2 notes2 uid now2 cacheOk2
      (confirmBooking did tsId notes uid now cacheOk db).2 slot2
      hfind2 hdoc2 hsb2 hotpf

/-- Witness for C7: on `bookDb` the successful booking by user 10 had a
live OTP window, clears it, and the immediate retry against the free
slot 2 of the post-state fails with `OTP_REQUIRED`; on `expDb` (no user
row) the OTP gate rejects directly. -/
theorem C7_witness :
    (∃ u t, findUser bookDb 10 = some u ∧ u.otpVerifiedUntil = some t ∧
      nowZero.ms < t) ∧
    confirmBooking 1 1 none 20 nowSix true expDb
      = (fail 403 Code.OTP_REQUIRED, expDb) ∧
    (∃ u', findUser (confirmBooking 1 1 none 10 nowZero true bookDb).2 10
      = some u' ∧ u'.otpVerifiedUntil = none) ∧
    confirmBooking 1 2 none 10 nowZero true
        (confirmBooking 1 1 none 10 nowZero true bookDb).2
      = (fail 403 Code.OTP_REQUIRED,
         (confirmBooking 1 1 none 10 nowZero true bookDb).2) := by
  refine ⟨(C7_otp_gate 1 1 none 10 nowZero true bookDb).1 (by decide),
    (C7_otp_gate 1 1 none 20 nowSix true expDb).2.1 expSlot
      (by decide) (by decide) (by decide) (by decide),
    (C7_otp_gate 1 1 none 10 nowZero true bookDb).2.2.1 (by decide),
    (C7_otp_gate 1 1 none 10 nowZero true bookDb).2.2.2 (by decide)
      1 2 none nowZero true
      ⟨2, 1, 864000000, ⟨11, 0⟩, ⟨11, 30⟩, SlotStatus.AVAILABLE, none, none, none⟩
      (by decide) (by decide) (by decide)⟩

/-- Claim C10: `updateAppointmentStatus` writes only the status field of
the target appointment; the slot table (and every other table) is left
untouched, so cancelling through this operation never releases a slot,
unlike `cancelAppointment`. -/
theorem C10_update_status_frame (uid apptId : Nat) (status : ApptStatus)
    (cacheOk : Bool) (db : DB) :
    (updateAppointmentStatus uid apptId status cacheOk db).2.slots = db.slots ∧
    (updateAppointmentStatus uid apptId status cacheOk db).2.users = db.users ∧
    (updateAppointmentStatus uid apptId status cacheOk db).2.nextApptId
      = db.nextApptId ∧
    ((updateAppointmentStatus uid apptId status cacheOk db).2.appointments
        = db.appointments ∨
      (updateAppointmentStatus uid apptId status cacheOk db).2.appointments
        = db.appointments.map (fun a =>
            if a.id == apptId then { a with status := status } else a)) := by
  simp only [updateAppointmentStatus]
  split
  · exact ⟨rfl, rfl, rfl, Or.inl rfl⟩
  · split
    · exact ⟨rfl, rfl, rfl, Or.inl rfl⟩
    · rename_i appt hfind
      have hid : appt.id = apptId := by
        simpa using List.find?_some hfind
      split
      · exact ⟨rfl, rfl, rfl, Or.inl rfl⟩
      · split
        · exact ⟨rfl, rfl, rfl, Or.inl rfl⟩
        · split <;> exact ⟨rfl, rfl, rfl, Or.inr (by rw [hid]; rfl)⟩

/-- Counterexample for C9: `updateAppointmentStatus` happily moves the
RESCHEDULED appointment 1 of `reschedTermDb` to CANCELLED, so a
RESCHEDULED appointment is not terminal. -/
theorem C9_counterexample :
    (findAppt reschedTermDb 1).map Appointment.status
      = some ApptStatus.RESCHEDULED ∧
    (updateAppointmentStatus 10 1 ApptStatus.CANCELLED true reschedTermDb).1.success
      = true ∧
    (findAppt
        (updateAppointmentStatus 10 1 ApptStatus.CANCELLED true reschedTermDb).2
        1).map Appointment.status
      = some ApptStatus.CANCELLED := by
  decide

/-- Claim C9 (amended): the booking workflows that target an appointment
(`cancelAppointment`, `rescheduleAppointment`, `confirmReschedule`) all
require status BOOKED, so none of them ever changes a RESCHEDULED
appointment or its `timeSlotId`; `updateAppointmentStatus`, however, can
move a RESCHEDULED appointment to any of BOOKED/COMPLETED/CANCELLED, and
`confirmReschedule`'s defensive cleanup can null the `timeSlotId` of a
RESCHEDULED appointment that points at the slot being re-booked. -/
theorem C9_rescheduled_terminal_amended (db : DB) (uid apptId : Nat)
    (a : Appointment)
    (hfind : db.appointments.find? (fun x => x.id == apptId && x.userId == uid)
      = some a)
    (hst : a.status = ApptStatus.RESCHEDULED) :
    (∀ now cacheOk, cancelAppointment uid apptId now cacheOk db
        = (fail 409 Code.ONLY_BOOKED_CANCEL, db)) ∧
    (∀ nsid now, rescheduleAppointment uid apptId nsid now db
        = (fail 409 Code.ONLY_BOOKED_RESCHEDULE, db)) ∧
    (∀ nsid osid did now cacheOk,
      confirmReschedule uid apptId nsid osid did now cacheOk db
        = (fail 409 Code.ONLY_BOOKED_RESCHEDULE, db)) := by
  refine ⟨?_, ?_, ?_⟩
  · intro now cacheOk
    simp [cancelAppointment, hfind, hst]
  · intro nsid now
    simp [rescheduleAppointment, hfind, hst]
  · intro nsid osid did now cacheOk
    simp [confirmReschedule, hfind, hst]

/-- Witness for C9 (amended): all three workflows refuse to touch the
RESCHEDULED appointment 1 of `reschedTermDb`. -/
theorem C9_witness :
    cancelAppointment 10 1 nowZero true reschedTermDb
      = (fail 409 Code.ONLY_BOOKED_CANCEL, reschedTermDb) ∧
    rescheduleAppointment 10 1 2 nowZero reschedTermDb
      = (fail 409 Code.ONLY_BOOKED_RESCHEDULE, reschedTermDb) ∧
    confirmReschedule 10 1 2 1 1 nowZero true reschedTermDb
      = (fail 409 Code.ONLY_BOOKED_RESCHEDULE, reschedTermDb) := by
  have h := C9_rescheduled_terminal_amended reschedTermDb 10 1
    ⟨1, 10, 1, some 1, ApptStatus.RESCHEDULED, none⟩ (by decide) (by decide)
  exact ⟨h.1 nowZero true, h.2.1 2 nowZero, h.2.2 2 1 1 nowZero true⟩

/-- Claim C5: cancelling a BOOKED appointment always succeeds and sets
it to CANCELLED; when the slot starts more than 24 hours after the
authoritative now it is released to AVAILABLE, otherwise (including the
exact 24h0m0s boundary) the slot table is left completely unchanged. -/
theorem C5_cancel_release_window (uid apptId sid : Nat) (now : NowT)
    (cacheOk : Bool) (db : DB) (a : Appointment) (s : Slot)
    (hwf : DB.WF db)
    (ha : db.appointments.find? (fun x => x.id == apptId && x.userId == uid)
      = some a)
    (hb : a.status = ApptStatus.BOOKED)
    (hts : a.timeSlotId = some sid)
    (hs : findSlot db sid = some s)
    (hbk : s.status = SlotStatus.BOOKED) :
    (cancelAppointment uid apptId now cacheOk db).1.success = true ∧
    (getUtcDateTime s.date s.startTime - now.ms > 24 * 60 * 60 * 1000 →
      (cancelAppointment uid apptId now cacheOk db).1.slotReleased = some true ∧
      ∃ s', findSlot (cancelAppointment uid apptId now cacheOk db).2 sid
          = some s' ∧
        s'.status = SlotStatus.AVAILABLE ∧ s'.lockedBy = none ∧
        s'.lockedAt = none) ∧
    (getUtcDateTime s.date s.startTime - now.ms ≤ 24 * 60 * 60 * 1000 →
      (cancelAppointment uid apptId now cacheOk db).1.slotReleased = some false ∧
      (cancelAppointment uid apptId now cacheOk db).2.slots = db.slots) ∧
    (∃ a', findAppt (cancelAppointment uid apptId now cacheOk db).2 apptId
        = some a' ∧ a'.status = ApptStatus.CANCELLED) := by
  have haid : a.id = apptId ∧ a.userId = uid := by
    have := List.find?_some ha
    simpa [Bool.and_eq_true] using this
  have hsid : s.id = sid := slot_found_id hs
  have hamem : a ∈ db.appointments := List.mem_of_find?_eq_some ha
  have habyid : db.appointments.find? (fun x => x.id == apptId) = some a :=
    find?_eq_of_nodup_key Appointment.id db.appointments hwf.2.1 a hamem apptId haid.1
  have hfindA : ∀ dbx : DB,
      dbx.appointments = db.appointments.map (fun x =>
        if x.id == a.id then { x with status := ApptStatus.CANCELLED } else x) →
      ∃ a', findAppt dbx apptId = some a' ∧ a'.status = ApptStatus.CANCELLED := by
    intro dbx hx
    have hmap : (db.appointments.map (fun x =>
        if x.id == a.id then { x with status := ApptStatus.CANCELLED } else x)).find?
          (fun x => x.id == apptId)
        = some { a with status := ApptStatus.CANCELLED } := by
      rw [find?_id_map Appointment.id db.appointments
        (fun x => if x.id == a.id then { x with status := ApptStatus.CANCELLED } else x)
        (by
          intro x
          by_cases hx2 : (x.id == a.id) = true <;> simp [hx2]) apptId]
      rw [habyid]
      simp [haid.1]
    refine ⟨{ a with status := ApptStatus.CANCELLED }, ?_, rfl⟩
    unfold findAppt
    rw [hx]
    exact hmap
  have hs' : db.slots.find? (fun t => t.id == sid) = some s := hs
  by_cases hmore : getUtcDateTime s.date s.startTime - now.ms > 24 * 60 * 60 * 1000
  · have hm : 86400000 < getUtcDateTime s.date s.startTime - now.ms := by omega
    have heq : cancelAppointment uid apptId now cacheOk db
        = (⟨200, true, none, some true⟩,
           updateApptById (updateSlotById db sid releaseOnCancel) a.id
             (fun x => { x with status := ApptStatus.CANCELLED })) := by
      simp [cancelAppointment, ha, hb, hts, hs, hbk, hm]
    rw [heq]
    refine ⟨rfl, ?_, ?_, ?_⟩
    · intro _
      refine ⟨rfl, ⟨releaseOnCancel s, ?_, rfl, rfl, rfl⟩⟩
      have hmap : (db.slots.map (fun t =>
          if t.id == sid then releaseOnCancel t else t)).find?
            (fun t => t.id == sid) = some (releaseOnCancel s) := by
        rw [find?_id_map Slot.id db.slots
          (fun t => if t.id == sid then releaseOnCancel t else t)
          (by
            intro x
            by_cases hx2 : (x.id == sid) = true <;> simp [hx2, releaseOnCancel]) sid]
        rw [hs']
        simp [hsid]
      exact hmap
    · intro hle
      omega
    · exact hfindA _ rfl
  · have hm : ¬(86400000 < getUtcDateTime s.date s.startTime - now.ms) := by omega
    have heq : cancelAppointment uid apptId now cacheOk db
        = (⟨200, true, none, some false⟩,
           updateApptById db a.id
             (fun x => { x with status := ApptStatus.CANCELLED })) := by
      simp [cancelAppointment, ha, hb, hts, hs, hbk, hm]
    rw [heq]
    refine ⟨rfl, ?_, ?_, ?_⟩
    · intro hgt
      exact absurd hgt hmore
    · intro _
      exact ⟨rfl, rfl⟩
    · exact hfindA _ rfl

/-- Witness for C5: cancelling appointment 1 of `boundaryDb` exactly
24h0m0s before the slot start keeps the slot table unchanged, while
cancelling appointment 1 of `bookedDb` ten days out releases slot 1. -/
theorem C5_witness :
    ((cancelAppointment 10 1 nowZero true boundaryDb).1.slotReleased
        = some false ∧
      (cancelAppointment 10 1 nowZero true boundaryDb).2.slots
        = boundaryDb.slots) ∧
    ((cancelAppointment 10 1 nowZero true bookedDb).1.slotReleased
        = some true ∧
      ∃ s', findSlot (cancelAppointment 10 1 nowZero true bookedDb).2 1
          = some s' ∧
        s'.status = SlotStatus.AVAILABLE ∧ s'.lockedBy = none ∧
        s'.lockedAt = none) :=
  ⟨(C5_cancel_release_window 10 1 1 nowZero true boundaryDb
      ⟨1, 10, 1, some 1, ApptStatus.BOOKED, none⟩
      ⟨1, 1, 86400000, ⟨0, 0⟩, ⟨0, 30⟩, SlotStatus.BOOKED, none, none, none⟩
      (by decide) (by decide) (by decide) (by decide) (by decide)
      (by decide)).2.2.1 (by decide),
   (C5_cancel_release_window 10 1 1 nowZero true bookedDb
      ⟨1, 10, 1, some 1, ApptStatus.BOOKED, none⟩
      ⟨1, 1, 864000000, ⟨10, 0⟩, ⟨10, 30⟩, SlotStatus.BOOKED, none, none, none⟩
      (by decide) (by decide) (by decide) (by decide) (by decide)
      (by decide)).2.1 (by decide)⟩

/-- Claim C1 (code evaluated at the failing inputs): `lockTimeSlot`
rejects with 409 every slot whose stored status is LOCKED — even when
the lease has already expired (user 20 at 00:06 against a lease that
expired at 00:05) and even for the lease holder's own re-acquire (user
10, expired or live) — although the conditional write's own `where`
filter (`lockWhere`) accepts exactly those cases.  The early
`status === LOCKED` return makes the expired-lease and idempotent
re-acquire paths of the claim unreachable. -/
theorem C1_lock_rejects_reacquirable_leases :
    expSlot.status = SlotStatus.LOCKED ∧
    expSlot.lockExpires = some 300000 ∧ (300000 : Int) < nowSix.ms ∧
    lockTimeSlot 1 1 20 nowSix expDb
      = (fail 409 Code.SLOT_ALREADY_LOCKED, expDb) ∧
    lockTimeSlot 1 1 10 nowSix expDb
      = (fail 409 Code.SLOT_ALREADY_LOCKED, expDb) ∧
    lockTimeSlot 1 1 10 ⟨0, 0, 2⟩ expDb
      = (fail 409 Code.SLOT_ALREADY_LOCKED, expDb) ∧
    lockWhere 1 1 20 nowSix.ms expSlot = true ∧
    lockWhere 1 1 10 nowSix.ms expSlot = true ∧
    lockWhere 1 1 10 (NowT.ms ⟨0, 0, 2⟩) expSlot = true := by
  decide

/-- What a committed `confirmReschedule` transaction did to the store. -/
theorem txConfirmReschedule_ok {uid nsid osid did : Nat} {appt : Appointment}
    {now : NowT} {db db' : DB} {na : Appointment}
    (h : txConfirmReschedule uid nsid osid did appt now db = Except.ok (db', na)) :
    db.slots.countP (reschedBookWhere nsid uid now.ms) = 1 ∧
    na = ⟨db.nextApptId, appt.userId, appt.doctorId, some nsid,
          ApptStatus.BOOKED, appt.notes⟩ ∧
    db' = { slots := (db.slots.map (fun s =>
              if reschedBookWhere nsid uid now.ms s then applyBook s else s)).map
                (fun s => if s.id == osid then releaseOldSlot s else s),
            appointments := ((db.appointments.map (reschedMark appt.id))
              ++ [na]).map (detachOther nsid na.id),
            users := db.users,
            nextApptId := db.nextApptId + 1 } := by
  simp only [txConfirmReschedule] at h
  split at h
  · exact absurd h (by simp)
  · split at h
    · exact absurd h (by simp)
    · split at h
      · exact absurd h (by simp)
      · split at h
        · exact absurd h (by simp)
        · rename_i h1 h2 h3 h4
          rw [Except.ok.injEq, Prod.mk.injEq] at h
          refine ⟨?_, ?_, ?_⟩
          · simp only [updateManySlots] at h4
            omega
          · rw [← h.2]
            rfl
          · rw [← h.1, ← h.2]
            rfl

/-- Spec of the handler: `confirmReschedule` either fails with an untouched store (and for
the four in-transaction error codes the target appointment had passed
all prechecks), or commits the transaction and reports success exactly
when the post-commit Redis invalidation succeeds. -/
theorem confirmReschedule_spec (uid apptId nsid osid did : Nat) (now : NowT)
    (cacheOk : Bool) (db : DB) :
    (∃ c st, confirmReschedule uid apptId nsid osid did now cacheOk db
        = (fail st c, db) ∧
      ((c = Code.NEW_SLOT_NOT_FOUND ∨ c = Code.NEW_SLOT_NOT_LOCKED_BY_USER ∨
        c = Code.SLOT_ALREADY_STARTED_OR_PAST ∨ c = Code.CONFLICT_NEW_SLOT) →
        st = reschedStatusMap c ∧
        ∃ a, db.appointments.find? (fun x => x.id == apptId && x.userId == uid)
            = some a ∧
          a.status = ApptStatus.BOOKED ∧ a.timeSlotId = some osid ∧
          a.doctorId = did)) ∨
    (∃ a db' na,
      db.appointments.find? (fun x => x.id == apptId && x.userId == uid)
        = some a ∧
      a.status = ApptStatus.BOOKED ∧ a.doctorId = did ∧
      a.timeSlotId = some osid ∧ osid ≠ nsid ∧
      txConfirmReschedule uid nsid osid did a now db = Except.ok (db', na) ∧
      confirmReschedule uid apptId nsid osid did now cacheOk db
        = ((if cacheOk then ok200 else fail 500 Code.INTERNAL), db')) := by
  simp only [confirmReschedule]
  split
  · exact Or.inl ⟨Code.APPT_NOT_FOUND, 404, rfl, by intro hc; simp at hc⟩
  · rename_i appt hfind
    split
    · exact Or.inl ⟨Code.ONLY_BOOKED_RESCHEDULE, 409, rfl, by intro hc; simp at hc⟩
    · rename_i hbooked
      split
      · exact Or.inl ⟨Code.DOCTOR_MISMATCH, 400, rfl, by intro hc; simp at hc⟩
      · rename_i hdoc
        split
        · exact Or.inl ⟨Code.OLD_SLOT_MISMATCH, 400, rfl, by intro hc; simp at hc⟩
        · rename_i hold
          split
          · exact Or.inl ⟨Code.SAME_SLOT, 400, rfl, by intro hc; simp at hc⟩
          · rename_i hsame
            split
            · rename_i c htx
              refine Or.inl ⟨c, reschedStatusMap c, rfl, ?_⟩
              intro _
              exact ⟨rfl, appt, hfind, not_not.mp hbooked, not_not.mp hold,
                not_not.mp hdoc⟩
            · rename_i db2 na htx
              right
              refine ⟨appt, db2, na, hfind, not_not.mp hbooked, not_not.mp hdoc,
                not_not.mp hold, hsame, htx, ?_⟩
              cases cacheOk <;> rfl

/-- Claim C4: whenever `confirmReschedule` reports one of the four
in-transaction failures (`NEW_SLOT_NOT_FOUND`,
`NEW_SLOT_NOT_LOCKED_BY_USER`, `SLOT_ALREADY_STARTED_OR_PAST`,
`CONFLICT_NEW_SLOT`), the store it returns is exactly the pre-state:
the old appointment still exists with status BOOKED pointing at the old
slot, the old slot's row is unchanged, and no new appointment row
exists. -/
theorem C4_confirmReschedule_rollback (uid apptId nsid osid did : Nat)
    (now : NowT) (cacheOk : Bool) (db : DB) :
    ∀ c, (confirmReschedule uid apptId nsid osid did now cacheOk db).1.code
        = some c →
      (c = Code.NEW_SLOT_NOT_FOUND ∨ c = Code.NEW_SLOT_NOT_LOCKED_BY_USER ∨
        c = Code.SLOT_ALREADY_STARTED_OR_PAST ∨ c = Code.CONFLICT_NEW_SLOT) →
      (confirmReschedule uid apptId nsid osid did now cacheOk db).2 = db ∧
      (∃ a, db.appointments.find? (fun x => x.id == apptId && x.userId == uid)
          = some a ∧ a.status = ApptStatus.BOOKED ∧ a.timeSlotId = some osid) ∧
      (confirmReschedule uid apptId nsid osid did now cacheOk db).2.appointments
        = db.appointments ∧
      findSlot (confirmReschedule uid apptId nsid osid did now cacheOk db).2 osid
        = findSlot db osid := by
  intro c hcode hmem
  rcases confirmReschedule_spec uid apptId nsid osid did now cacheOk db with
    ⟨c', st, heq, himp⟩ | ⟨a, db', na, hfind, hst, hdoc, hts, hne, htx, heq⟩
  · rw [heq] at hcode
    simp [fail] at hcode
    subst hcode
    obtain ⟨hstm, a, hfinda, hba, htsa, _⟩ := himp hmem
    rw [heq]
    exact ⟨rfl, ⟨a, hfinda, hba, htsa⟩, rfl, rfl⟩
  · rw [heq] at hcode
    cases hck : cacheOk with
    | true =>
      rw [hck] at hcode
      simp [ok200] at hcode
    | false =>
      rw [hck] at hcode
      simp [fail] at hcode
      subst hcode
      rcases hmem with h | h | h | h <;> cases h

/-- Witness for C4: confirming a reschedule of `reschedDb`'s
appointment 1 onto the nonexistent slot 3 fails with
`NEW_SLOT_NOT_FOUND` and returns the untouched store. -/
theorem C4_witness :
    (confirmReschedule 10 1 3 1 1 nowZero true reschedDb).2 = reschedDb ∧
    (confirmReschedule 10 1 3 1 1 nowZero true reschedDb).2.appointments
      = reschedDb.appointments :=
  ⟨(C4_confirmReschedule_rollback 10 1 3 1 1 nowZero true reschedDb
      Code.NEW_SLOT_NOT_FOUND (by decide) (by decide)).1,
   (C4_confirmReschedule_rollback 10 1 3 1 1 nowZero true reschedDb
      Code.NEW_SLOT_NOT_FOUND (by decide) (by decide)).2.2.1⟩

/-- Effect on the appointment table: `cancelAppointment` either leaves it unchanged or
demotes exactly the rows of one id to CANCELLED. -/
theorem cancelAppointment_appts (uid apptId : Nat) (now : NowT) (cacheOk : Bool)
    (db : DB) :
    (cancelAppointment uid apptId now cacheOk db).2.appointments
      = db.appointments ∨
    ∃ aid, (cancelAppointment uid apptId now cacheOk db).2.appointments
      = db.appointments.map (fun x =>
          if x.id == aid then { x with status := ApptStatus.CANCELLED } else x) := by
  simp only [cancelAppointment]
  split
  · exact Or.inl rfl
  · rename_i appt hfind
    split
    · exact Or.inl rfl
    · right
      refine ⟨appt.id, ?_⟩
      split
      · split
        · split
          · rfl
          · rfl
        · rfl
      · rfl

/-- Counterexample for C8: on `reschedDb` the reschedule transaction
commits, yet when the post-commit Redis invalidation fails the request
reports a 500 instead of success — the cache failure changed the
request's outcome even though the store holds the committed data. -/
theorem C8_counterexample :
    (confirmReschedule 10 1 2 1 1 nowZero true reschedDb).1.success = true ∧
    (confirmReschedule 10 1 2 1 1 nowZero false reschedDb).1
      = fail 500 Code.INTERNAL ∧
    (confirmReschedule 10 1 2 1 1 nowZero false reschedDb).2
      = (confirmReschedule 10 1 2 1 1 nowZero true reschedDb).2 ∧
    (confirmReschedule 10 1 2 1 1 nowZero false reschedDb).2 ≠ reschedDb := by
  decide

/-- Claim C8 (amended): in `confirmBooking` and `cancelAppointment` the
post-commit cache invalidation is inside `try/catch`, so its failure
never changes the response or the store; in `confirmReschedule` the
committed store is likewise independent of the cache, but the Redis
calls are not guarded, so on a committed transaction a cache failure
turns the success response into the generic 500 error. -/
theorem C8_cache_isolation_amended :
    (∀ did tsId notes uid now db,
      confirmBooking did tsId notes uid now false db
        = confirmBooking did tsId notes uid now true db) ∧
    (∀ uid apptId now db,
      cancelAppointment uid apptId now false db
        = cancelAppointment uid apptId now true db) ∧
    (∀ uid apptId nsid osid did now db,
      (confirmReschedule uid apptId nsid osid did now false db).2
        = (confirmReschedule uid apptId nsid osid did now true db).2) ∧
    (∀ uid apptId nsid osid did now db,
      (confirmReschedule uid apptId nsid osid did now true db).1.success = true →
      (confirmReschedule uid apptId nsid osid did now false db).1
        = fail 500 Code.INTERNAL) := by
  refine ⟨?_, ?_, ?_, ?_⟩
  · intro did tsId notes uid now db
    simp only [confirmBooking]
    split
    · rfl
    · split
      · rfl
      · split
        · rfl
        · split
          · rfl
          · split
            · rfl
            · split
              · rfl
              · rfl
  · intro uid apptId now db
    rfl
  · intro uid apptId nsid osid did now db
    simp only [confirmReschedule]
    split
    · rfl
    · split
      · rfl
      · split
        · rfl
        · split
          · rfl
          · split
            · rfl
            · split
              · rfl
              · rfl
  · intro uid apptId nsid osid did now db
    simp only [confirmReschedule]
    split
    · intro h
      simp [fail] at h
    · split
      · intro h
        simp [fail] at h
      · split
        · intro h
          simp [fail] at h
        · split
          · intro h
            simp [fail] at h
          · split
            · intro h
              simp [fail] at h
            · split
              · intro h
                simp [fail] at h
              · intro _
                rfl

/-- Witness for C8 (amended): concrete runs of all three workflows with
the cache failing and succeeding. -/
theorem C8_witness :
    confirmBooking 1 1 none 10 nowZero false bookDb
      = confirmBooking 1 1 none 10 nowZero true bookDb ∧
    cancelAppointment 10 1 nowZero false bookedDb
      = cancelAppointment 10 1 nowZero true bookedDb ∧
    (confirmReschedule 10 1 2 1 1 nowZero false reschedDb).2
      = (confirmReschedule 10 1 2 1 1 nowZero true reschedDb).2 ∧
    (confirmReschedule 10 1 2 1 1 nowZero false reschedDb).1
      = fail 500 Code.INTERNAL :=
  ⟨C8_cache_isolation_amended.1 1 1 none 10 nowZero bookDb,
   C8_cache_isolation_amended.2.1 10 1 nowZero bookedDb,
   C8_cache_isolation_amended.2.2.1 10 1 2 1 1 nowZero reschedDb,
   C8_cache_isolation_amended.2.2.2 10 1 2 1 1 nowZero reschedDb (by decide)⟩

/-- Counterexample for C2: starting from `traceDb` (no appointments, so
the invariant holds) the six-step trace lock → book → cancel (>24h,
slot released) → lock → book → `updateAppointmentStatus(..., BOOKED)`
consists solely of successful operations of the system and ends with
two BOOKED appointments both referencing slot 1. -/
theorem C2_counterexample :
    traceDb.appointments = [] ∧
    trace1.1.success = true ∧ trace2.1.success = true ∧
    trace3.1.success = true ∧ trace4.1.success = true ∧
    trace5.1.success = true ∧ trace6.1.success = true ∧
    countBooked trace6.2 1 = 2 := by
  decide

/-- Claim C2 (amended): `confirmBooking`, `cancelAppointment` and
`confirmReschedule` preserve the at-most-one-BOOKED-appointment-per-slot
invariant on well-formed stores; `updateAppointmentStatus` does not (it
can return a CANCELLED or RESCHEDULED appointment to BOOKED with no slot
check), so the invariant does not hold in every reachable state. -/
theorem C2_amended_invariant_preservation (db : DB) (hwf : DB.WF db)
    (hinv : apptInv db) :
    (∀ did tsId notes uid now cacheOk,
      apptInv (confirmBooking did tsId notes uid now cacheOk db).2) ∧
    (∀ uid apptId now cacheOk,
      apptInv (cancelAppointment uid apptId now cacheOk db).2) ∧
    (∀ uid apptId nsid osid did now cacheOk,
      apptInv (confirmReschedule uid apptId nsid osid did now cacheOk db).2) := by
  refine ⟨?_, ?_, ?_⟩
  · intro did tsId notes uid now cacheOk
    cases hs : (confirmBooking did tsId notes uid now cacheOk db).1.success with
    | false =>
      rw [(confirmBooking_fail_shape did tsId notes uid now cacheOk db hs).1]
      exact hinv
    | true =>
      obtain ⟨slot, _, _, _, _, _, _, hnone, hdb, _⟩ :=
        confirmBooking_ok_shape did tsId notes uid now cacheOk db hs
      have hcount0 : countBooked db tsId = 0 :=
        List.countP_eq_zero.mpr (List.find?_eq_none.mp hnone)
      intro sid
      rw [hdb]
      show (db.appointments ++
        [(⟨db.nextApptId, uid, did, some tsId, ApptStatus.BOOKED, notes⟩ :
          Appointment)]).countP
          (fun x => x.timeSlotId == some sid && x.status == ApptStatus.BOOKED) ≤ 1
      rw [List.countP_append, countP_singleton]
      by_cases hsid : sid = tsId
      · subst hsid
        have h0 : db.appointments.countP (fun x =>
            x.timeSlotId == some sid && x.status == ApptStatus.BOOKED) = 0 := hcount0
        rw [h0]
        split <;> omega
      · have hbe : ((some tsId : Option Nat) == some sid) = false := by
          rw [beq_eq_false_iff_ne]
          intro hco
          injection hco with hco'
          exact hsid hco'.symm
        split
        · rename_i hcond
          simp [hbe] at hcond
        · have := hinv sid
          unfold countBooked at this
          omega
  · intro uid apptId now cacheOk
    rcases cancelAppointment_appts uid apptId now cacheOk db with heq | ⟨aid, heq⟩
    · intro sid
      unfold countBooked
      rw [heq]
      exact hinv sid
    · intro sid
      unfold countBooked
      rw [heq]
      have hle := countP_map_le
        (fun x => x.timeSlotId == some sid && x.status == ApptStatus.BOOKED)
        (fun x => if x.id == aid then { x with status := ApptStatus.CANCELLED } else x)
        db.appointments
        (by
          intro x hx
          by_cases hc : (x.id == aid) = true
          · simp [hc] at hx
          · simpa [hc] using hx)
      have := hinv sid
      unfold countBooked at this
      omega
  · intro uid apptId nsid osid did now cacheOk
    rcases confirmReschedule_spec uid apptId nsid osid did now cacheOk db with
      ⟨c, st, heq, _⟩ | ⟨a, db', na, hfind, hstB, hdocB, htsB, hneB, htx, heq⟩
    · have h2 : (confirmReschedule uid apptId nsid osid did now cacheOk db).2 = db :=
        congrArg Prod.snd heq
      rw [h2]
      exact hinv
    · have h2 : (confirmReschedule uid apptId nsid osid did now cacheOk db).2 = db' :=
        congrArg Prod.snd heq
      obtain ⟨hcnt, hna, hdb'⟩ := txConfirmReschedule_ok htx
      have hnaid : na.id = db.nextApptId := by rw [hna]
      have hnats : na.timeSlotId = some nsid := by rw [hna]
      intro sid
      rw [h2, hdb']
      show (((db.appointments.map (reschedMark a.id)) ++ [na]).map
          (detachOther nsid na.id)).countP
            (fun x => x.timeSlotId == some sid && x.status == ApptStatus.BOOKED)
          ≤ 1
      rw [List.map_append, List.countP_append, List.map_cons, List.map_nil,
        detachOther_self nsid na]
      by_cases hsid : sid = nsid
      · subst hsid
        have hz : ((db.appointments.map (reschedMark a.id)).map
            (detachOther sid na.id)).countP
              (fun x => x.timeSlotId == some sid && x.status == ApptStatus.BOOKED)
            = 0 := by
          apply List.countP_eq_zero.mpr
          intro y hy
          rw [List.mem_map] at hy
          obtain ⟨z, hzmem, rfl⟩ := hy
          rw [List.mem_map] at hzmem
          obtain ⟨x, hxmem, rfl⟩ := hzmem
          intro hp
          have hxid : (reschedMark a.id x).id ≠ na.id := by
            rw [reschedMark_id, hnaid]
            have := hwf.2.2.2 x hxmem
            omega
          have hfalse := detachOther_not_booked_on sid na.id (reschedMark a.id x) hxid
          rw [hfalse] at hp
          cases hp
        rw [hz]
        have h1 : List.countP
            (fun x => x.timeSlotId == some sid && x.status == ApptStatus.BOOKED)
            [na] ≤ 1 := by
          rw [List.countP_cons]
          simp [List.countP_nil]
          split <;> omega
        omega
      · have hbe : ((some nsid : Option Nat) == some sid) = false := by
          rw [beq_eq_false_iff_ne]
          intro hco
          injection hco with hco'
          exact hsid hco'.symm
        have h1 : List.countP
            (fun x => x.timeSlotId == some sid && x.status == ApptStatus.BOOKED)
            [na] = 0 := by
          rw [List.countP_cons, List.countP_nil]
          have : (na.timeSlotId == some sid && na.status == ApptStatus.BOOKED)
              = false := by
            rw [hnats, hbe]
            rfl
          rw [this]
          rfl
        have hle1 := countP_map_le
          (fun x => x.timeSlotId == some sid && x.status == ApptStatus.BOOKED)
          (detachOther nsid na.id)
          (db.appointments.map (reschedMark a.id))
          (fun x => detachOther_demote nsid na.id sid x)
        have hle2 := countP_map_le
          (fun x => x.timeSlotId == some sid && x.status == ApptStatus.BOOKED)
          (reschedMark a.id)
          db.appointments
          (fun x => reschedMark_demote a.id sid x)
        have := hinv sid
        unfold countBooked at this
        omega

/-- Witness for C2 (amended): the three preserving workflows applied to
`traceDb`, whose empty appointment table satisfies the invariant. -/
theorem C2_witness :
    countBooked (confirmBooking 1 1 none 10 nowZero true traceDb).2 1 ≤ 1 ∧
    countBooked (cancelAppointment 10 1 nowZero true traceDb).2 1 ≤ 1 ∧
    countBooked (confirmReschedule 10 1 2 1 1 nowZero true traceDb).2 1 ≤ 1 :=
  have h := C2_amended_invariant_preservation traceDb (by decide)
    (fun _ => by simp [countBooked, traceDb])
  ⟨h.1 1 1 none 10 nowZero true 1, h.2.1 10 1 nowZero true 1,
   h.2.2 10 1 2 1 1 nowZero true 1⟩

end Ayur
